import Mathlib

/-!
Verification of the CAD-MCP command-interpretation and backend-abstraction
layers.

The development shallowly embeds the Python sources:

* `src/nlp_processor.py` — lexical extraction (regex scans modelled as
  explicit left-to-right backtracking scanners over `List Char`), command
  classification and per-shape parameter parsing;
* `src/cad_controller.py` — the ezdxf backend variant of the controller
  (the variant the module selects whenever the ezdxf library is installed);
  the document is modelled as a layer table plus the ordered list of
  entities handed to the drawing library, with the library's own internal
  validation and the filesystem treated as outside the model boundary;
* `src/server.py` — `process_natural_language_command`, the dispatcher that
  routes a parsed command to a controller operation.

Coordinates are modelled as rationals (the exercised literals are exact in
both `float` and `ℚ`).  Strings are ASCII in every exercised input; Python
`str.lower`, `\d`, `\s` and `str.strip` are modelled at ASCII fidelity.
-/

namespace CadMcp

/-! ### Character classes (Python regex `\d`, `\s`, quotes) -/

/-- Python regex `\d` on the ASCII inputs exercised here. -/
def isPyDigit (c : Char) : Bool := c.isDigit

/-- Python regex `\s`: space, tab, newline, carriage return, vertical tab,
form feed. -/
def isPyWS (c : Char) : Bool :=
  c = ' ' || c = '\t' || c = '\n' || c = '\x0d' || c = '\x0b' || c = '\x0c'

/-- A double or single quote, the class `["\']` used by the source regexes. -/
def isQuote (c : Char) : Bool := c = '"' || c = '\''

/-- ASCII model of Python `str.lower()`. -/
def strLower (s : String) : String := String.mk (s.data.map Char.toLower)

/-! ### Substring containment (Python `needle in haystack`) -/

/-- `beginsWith hay needle`: `needle` is a literal prefix of `hay`. -/
def beginsWith : List Char → List Char → Bool
  | _, [] => true
  | [], _ :: _ => false
  | c :: cs, d :: ds => c = d && beginsWith cs ds

/-- `hasSubList hay needle`: `needle` occurs contiguously inside `hay`
(Python `needle in hay` on strings). -/
def hasSubList : List Char → List Char → Bool
  | [], needle => needle.isEmpty
  | c :: cs, needle => beginsWith (c :: cs) needle || hasSubList cs needle

/-- Python `needle in hay` for strings. -/
def strContainsSub (hay needle : String) : Bool := hasSubList hay.data needle.data

/-- `ciBegins cs pat`: `cs` starts with `pat` up to ASCII lower-casing of
`cs` (the source patterns are all lower case and compiled with
`re.IGNORECASE`); returns the remainder of `cs` on success. -/
def ciBegins : List Char → List Char → Option (List Char)
  | cs, [] => some cs
  | [], _ :: _ => none
  | c :: cs, p :: ps => if c.toLower = p then ciBegins cs ps else none

/-- Regex `\s+` followed by maximal munch: requires at least one whitespace
character, consumes the whole run, returns the remainder. -/
def takeWhile1WS (cs : List Char) : Option (List Char) :=
  match cs with
  | c :: t => if isPyWS c then some (t.dropWhile isPyWS) else none
  | [] => none

/-! ### Numeric literals: the regex `-?\d+\.?\d*` (`_extract_numbers`) -/

/-- Maximal run of digits, returned together with the remainder. -/
def takeDigits : List Char → List Char × List Char
  | [] => ([], [])
  | c :: cs =>
    if isPyDigit c then
      let (ds, r) := takeDigits cs
      (c :: ds, r)
    else ([], c :: cs)

/-- Match the regex `-?\d+\.?\d*` at the head of `cs` (maximal munch, which
is what the pattern alone yields); returns the matched text and remainder,
or `none` when the pattern does not match here. -/
def matchNumTok (cs : List Char) : Option (List Char × List Char) :=
  let (neg, cs1) :=
    match cs with
    | '-' :: t => (true, t)
    | _ => (false, cs)
  let (ds, cs2) := takeDigits cs1
  if ds.isEmpty then none
  else
    let (tok, rest) :=
      match cs2 with
      | '.' :: t =>
        let (ds2, cs3) := takeDigits t
        (ds ++ '.' :: ds2, cs3)
      | _ => (ds, cs2)
    some ((if neg then '-' :: tok else tok), rest)

/-- Digit characters to a natural number. -/
def digitsToNat (ds : List Char) : Nat :=
  ds.foldl (fun a c => a * 10 + (c.toNat - 48)) 0

/-- Value of the digits-and-optional-fraction part of a numeric token. -/
def ratOfDigitsDot (cs : List Char) : ℚ :=
  let (ds, r) := takeDigits cs
  match r with
  | '.' :: t => (digitsToNat ds : ℚ) + (digitsToNat (takeDigits t).1 : ℚ) / (10 ^ (takeDigits t).1.length : ℚ)
  | _ => (digitsToNat ds : ℚ)

/-- Python `float(tok)` for a token matched by `-?\d+\.?\d*`. -/
def ratOfNumChars (cs : List Char) : ℚ :=
  match cs with
  | '-' :: t => - ratOfDigitsDot t
  | t => ratOfDigitsDot t

/-- `re.findall(r'-?\d+\.?\d*', ·)` mapped through `float`: scan left to
right, at each position try the pattern, on success continue after the
match, on failure advance one character.  `fuel` bounds the recursion;
every step consumes at least one character, so `cs.length` suffices. -/
def scanNumbers : Nat → List Char → List ℚ
  | 0, _ => []
  | _ + 1, [] => []
  | fuel + 1, c :: cs =>
    match matchNumTok (c :: cs) with
    | some (tok, rest) => ratOfNumChars tok :: scanNumbers fuel rest
    | none => scanNumbers fuel cs

/-- `NLPProcessor._extract_numbers`. -/
def extractNumbers (command : String) : List ℚ :=
  scanNumbers command.data.length command.data

/-! ### Coordinate pairs: `\(?(-?\d+\.?\d*)\s*,\s*(-?\d+\.?\d*)\)?`
(`_extract_points`) -/

/-- The continuation after group 1: `\s*,\s*` then group 2 then `\)?`.
Whitespace runs are maximal (a comma is never whitespace, so the engine
never has to give characters back); group 2 is maximal (its continuation
`\)?` always succeeds). -/
def pairCont (cs : List Char) : Option (ℚ × List Char) :=
  match cs.dropWhile isPyWS with
  | ',' :: r2 =>
    match matchNumTok (r2.dropWhile isPyWS) with
    | some (tok2, r4) =>
      let r5 :=
        match r4 with
        | ')' :: t => t
        | _ => r4
      some (ratOfNumChars tok2, r5)
    | none => none
  | _ => none

/-- Backtracking over the end of group 1.  A backtracking engine tries the
ends of `-?\d+\.?\d*` in decreasing order of consumed length, and every
prefix of the maximal token of length at least `minL` (2 with a sign, else
1) is itself a valid token, so candidate lengths are tried from
`tok1max.length` down to `minL`. -/
def tryG1 (cs0 : List Char) (minL : Nat) : Nat → Option (ℚ × ℚ × List Char)
  | 0 => none
  | k + 1 =>
    if k + 1 < minL then none
    else
      match pairCont (cs0.drop (k + 1)) with
      | some (v2, rest) => some (ratOfNumChars (cs0.take (k + 1)), v2, rest)
      | none => tryG1 cs0 minL k

/-- Match the whole pair pattern at the head of `cs`; returns the two
captured values and the remainder after the match. -/
def matchPairAt (cs : List Char) : Option ((ℚ × ℚ) × List Char) :=
  let cs0 :=
    match cs with
    | '(' :: t => t
    | _ => cs
  match matchNumTok cs0 with
  | none => none
  | some (tok1, _) =>
    let minL :=
      match tok1 with
      | '-' :: _ => 2
      | _ => 1
    match tryG1 cs0 minL tok1.length with
    | some (v1, v2, rest) => some ((v1, v2), rest)
    | none => none

/-- `re.findall` scan for the pair pattern. -/
def scanPairs : Nat → List Char → List (ℚ × ℚ)
  | 0, _ => []
  | _ + 1, [] => []
  | fuel + 1, c :: cs =>
    match matchPairAt (c :: cs) with
    | some (pr, rest) => pr :: scanPairs fuel rest
    | none => scanPairs fuel cs

/-- `NLPProcessor._extract_points`. -/
def extractPoints (command : String) : List (ℚ × ℚ) :=
  scanPairs command.data.length command.data

/-! ### Keyword-anchored scalar extraction
(`radius\s+(-?\d+\.?\d*)`, `height\s+(-?\d+\.?\d*)`, both `re.IGNORECASE`) -/

/-- Match `<kw>\s+(-?\d+\.?\d*)` at the head of `cs`, case-insensitively. -/
def matchKwNumAt (kw : List Char) (cs : List Char) : Option ℚ :=
  match ciBegins cs kw with
  | none => none
  | some r1 =>
    match takeWhile1WS r1 with
    | none => none
    | some r2 =>
      match matchNumTok r2 with
      | some (tok, _) => some (ratOfNumChars tok)
      | none => none

/-- `re.search` scan for `matchKwNumAt`. -/
def scanKwNum (kw : List Char) : Nat → List Char → Option ℚ
  | 0, _ => none
  | _ + 1, [] => none
  | fuel + 1, c :: cs =>
    match matchKwNumAt kw (c :: cs) with
    | some v => some v
    | none => scanKwNum kw fuel cs

/-- First match of `<kw>\s+(-?\d+\.?\d*)` in `command` (IGNORECASE). -/
def keywordNumber (command : String) (kw : List Char) : Option ℚ :=
  scanKwNum kw command.data.length command.data

/-! ### Arc angle patterns
`(?:start|from)\s+angle?\s+(-?\d+\.?\d*)` and
`(?:end|to)\s+angle?\s+(-?\d+\.?\d*)` (IGNORECASE).  Note the source
pattern is `angle?`: the final `e` is optional, and the engine prefers
keeping it, falling back to `angl` when required whitespace then fails. -/

/-- `angl` then optional `e` then `\s+` then the captured number. -/
def anglTail (r2 : List Char) : Option ℚ :=
  match ciBegins r2 ['a', 'n', 'g', 'l'] with
  | none => none
  | some r3 =>
    let withE : Option ℚ :=
      match r3 with
      | c :: t =>
        if c.toLower = 'e' then
          match takeWhile1WS t with
          | some r4 => (matchNumTok r4).map (fun pr => ratOfNumChars pr.1)
          | none => none
        else none
      | [] => none
    match withE with
    | some v => some v
    | none =>
      match takeWhile1WS r3 with
      | some r4 => (matchNumTok r4).map (fun pr => ratOfNumChars pr.1)
      | none => none

/-- `(?:alt1|alt2)\s+angle?\s+(number)` at the head of `cs`.  The two
alternatives of each source pattern start with different letters, so at a
given position at most one of them can match. -/
def matchAnglePatAt (alt1 alt2 : List Char) (cs : List Char) : Option ℚ :=
  let afterAlt :=
    match ciBegins cs alt1 with
    | some r => some r
    | none => ciBegins cs alt2
  match afterAlt with
  | none => none
  | some r1 =>
    match takeWhile1WS r1 with
    | none => none
    | some r2 => anglTail r2

/-- `re.search` scan for an angle pattern. -/
def scanAnglePat (alt1 alt2 : List Char) : Nat → List Char → Option ℚ
  | 0, _ => none
  | _ + 1, [] => none
  | fuel + 1, c :: cs =>
    match matchAnglePatAt alt1 alt2 (c :: cs) with
    | some v => some v
    | none => scanAnglePat alt1 alt2 fuel cs

/-- The `start_angle_match` of `_parse_arc_params`. -/
def startAngleKw (command : String) : Option ℚ :=
  scanAnglePat ['s','t','a','r','t'] ['f','r','o','m'] command.data.length command.data

/-- The `end_angle_match` of `_parse_arc_params`. -/
def endAngleKw (command : String) : Option ℚ :=
  scanAnglePat ['e','n','d'] ['t','o'] command.data.length command.data

/-! ### Keyword-anchored string extraction
(`pattern\s+["\']?([^"\']+)["\']?` and the tail of the layer pattern) -/

/-- `<kw>\s+["\']?([^"\']+)["\']?` at the head of `cs`: the capture is the
maximal nonempty run of non-quote characters after the optional opening
quote.  (If the opening quote is followed directly by another quote, the
engine's retry without consuming the quote also fails, since `[^"\']+`
cannot start at a quote.) -/
def matchKwStrAt (kw : List Char) (cs : List Char) : Option String :=
  match ciBegins cs kw with
  | none => none
  | some r1 =>
    match takeWhile1WS r1 with
    | none => none
    | some r2 =>
      let r3 :=
        match r2 with
        | c :: t => if isQuote c then t else r2
        | [] => r2
      let content := r3.takeWhile (fun c => !(isQuote c))
      if content.isEmpty then none else some (String.mk content)

/-- `re.search` scan for `matchKwStrAt`. -/
def scanKwStr (kw : List Char) : Nat → List Char → Option String
  | 0, _ => none
  | _ + 1, [] => none
  | fuel + 1, c :: cs =>
    match matchKwStrAt kw (c :: cs) with
    | some v => some v
    | none => scanKwStr kw fuel cs

/-- The `pattern_match` of `_parse_hatch_params`. -/
def patternKw (command : String) : Option String :=
  scanKwStr ['p','a','t','t','e','r','n'] command.data.length command.data

/-! ### Layer extraction: `(?:on|in)\s+layer\s+["\']?([^"\']+)["\']?`
(`_extract_layer`, IGNORECASE, applied to the original command) -/

/-- The layer pattern at the head of `cs`. -/
def matchLayerAt (cs : List Char) : Option String :=
  let afterPrep :=
    match ciBegins cs ['o', 'n'] with
    | some r => some r
    | none => ciBegins cs ['i', 'n']
  match afterPrep with
  | none => none
  | some r1 =>
    match takeWhile1WS r1 with
    | none => none
    | some r2 => matchKwStrAt ['l','a','y','e','r'] r2

/-- `re.search` scan for the layer pattern. -/
def scanLayer : Nat → List Char → Option String
  | 0, _ => none
  | _ + 1, [] => none
  | fuel + 1, c :: cs =>
    match matchLayerAt (c :: cs) with
    | some v => some v
    | none => scanLayer fuel cs

/-- `NLPProcessor._extract_layer`. -/
def extractLayer (command : String) : Option String :=
  scanLayer command.data.length command.data

/-! ### Save filename: `(?:as|to|in)\s+["\']?([^"\']+\.dwg)["\']?`
(`_parse_save_command`, IGNORECASE) -/

/-- Candidate prefixes of the non-quote region ending in `.dwg`
(case-insensitively), longest first — the greedy `[^"\']+` backtracks to
the last `.dwg` occurrence preceded by at least one character. -/
def tryDwg (region : List Char) : Nat → Option (List Char)
  | 0 => none
  | i + 1 =>
    if (ciBegins (region.drop (i + 1)) ['.','d','w','g']).isSome then
      some (region.take (i + 1 + 4))
    else tryDwg region i

/-- The filename pattern at the head of `cs`. -/
def matchFilenameAt (cs : List Char) : Option String :=
  let afterKw :=
    match ciBegins cs ['a', 's'] with
    | some r => some r
    | none =>
      match ciBegins cs ['t', 'o'] with
      | some r => some r
      | none => ciBegins cs ['i', 'n']
  match afterKw with
  | none => none
  | some r1 =>
    match takeWhile1WS r1 with
    | none => none
    | some r2 =>
      let r3 :=
        match r2 with
        | c :: t => if isQuote c then t else r2
        | [] => r2
      let region := r3.takeWhile (fun c => !(isQuote c))
      match tryDwg region region.length with
      | some name => some (String.mk name)
      | none => none

/-- `re.search` scan for the filename pattern. -/
def scanFilename : Nat → List Char → Option String
  | 0, _ => none
  | _ + 1, [] => none
  | fuel + 1, c :: cs =>
    match matchFilenameAt (c :: cs) with
    | some v => some v
    | none => scanFilename fuel cs

/-- The `filename_match` capture of `_parse_save_command`. -/
def extractFilename (command : String) : Option String :=
  scanFilename command.data.length command.data

/-! ### Text content (`_parse_text_params`) -/

/-- First quoted substring: `["\']([^"\']+)["\']`. -/
def matchQuotedAt (cs : List Char) : Option String :=
  match cs with
  | c :: t =>
    if isQuote c then
      let content := t.takeWhile (fun d => !(isQuote d))
      match t.dropWhile (fun d => !(isQuote d)) with
      | _ :: _ => if content.isEmpty then none else some (String.mk content)
      | [] => none
    else none
  | [] => none

/-- `re.search` scan for a quoted substring. -/
def scanQuoted : Nat → List Char → Option String
  | 0, _ => none
  | _ + 1, [] => none
  | fuel + 1, c :: cs =>
    match matchQuotedAt (c :: cs) with
    | some v => some v
    | none => scanQuoted fuel cs

/-- The quoted `text_match` of `_parse_text_params`. -/
def extractQuoted (command : String) : Option String :=
  scanQuoted command.data.length command.data

/-- Tail `["\']?(?:\s+at|\s+$)` of the fallback text pattern.  The optional
quote is consumed when present (retrying without it cannot help, since a
quote is not whitespace), and each `\s+` is a maximal munch (neither `a`
nor end-of-string is whitespace). -/
def textTailOk (r : List Char) : Bool :=
  let r1 :=
    match r with
    | c :: t => if isQuote c then t else r
    | [] => r
  match takeWhile1WS r1 with
  | some r2 => (ciBegins r2 ['a', 't']).isSome || r2.isEmpty
  | none => false

/-- The lazy capture `([^"\']+?)`: grow the group one character at a time
from length 1 and stop at the first length whose continuation matches. -/
def lazyFrom (cs : List Char) : Nat → Nat → Option (List Char)
  | 0, _ => none
  | fuel + 1, k =>
    if k ≤ cs.length then
      if (cs.take k).all (fun c => !(isQuote c)) && textTailOk (cs.drop k) then
        some (cs.take k)
      else lazyFrom cs fuel (k + 1)
    else none

/-- `["\']?` then the lazy group then the tail. -/
def groupAndTail (r : List Char) : Option (List Char) :=
  let r1 :=
    match r with
    | c :: t => if isQuote c then t else r
    | [] => r
  lazyFrom r1 (r1.length + 1) 1

/-- `(?:saying\s+)?` then group and tail; the optional `saying` branch is
preferred and abandoned wholesale if the rest fails after it. -/
def textKwTail (r2 : List Char) : Option (List Char) :=
  let withSaying :=
    match ciBegins r2 ['s','a','y','i','n','g'] with
    | some r3 =>
      match takeWhile1WS r3 with
      | some r4 => groupAndTail r4
      | none => none
    | none => none
  match withSaying with
  | some g => some g
  | none => groupAndTail r2

/-- The fallback pattern
`(?:text|label)\s+(?:saying\s+)?["\']?([^"\']+?)["\']?(?:\s+at|\s+$)`
at the head of `cs` (IGNORECASE; `$` modelled as end of string — no
exercised command ends in a newline). -/
def matchTextKwAt (cs : List Char) : Option String :=
  let afterKw :=
    match ciBegins cs ['t','e','x','t'] with
    | some r => some r
    | none => ciBegins cs ['l','a','b','e','l']
  match afterKw with
  | none => none
  | some r1 =>
    match takeWhile1WS r1 with
    | none => none
    | some r2 => (textKwTail r2).map String.mk

/-- `re.search` scan for the fallback text pattern. -/
def scanTextKw : Nat → List Char → Option String
  | 0, _ => none
  | _ + 1, [] => none
  | fuel + 1, c :: cs =>
    match matchTextKwAt (c :: cs) with
    | some v => some v
    | none => scanTextKw fuel cs

/-- The keyword-anchored `text_match` fallback of `_parse_text_params`. -/
def extractTextKw (command : String) : Option String :=
  scanTextKw command.data.length command.data

/-- ASCII model of Python `str.strip()`. -/
def pyStrip (s : String) : String :=
  String.mk (((s.data.dropWhile isPyWS).reverse.dropWhile isPyWS).reverse)

/-! ### Keyword tables and classification (`NLPProcessor.__init__`,
`_detect_command_type`, `_extract_color`) -/

/-- `self.color_keywords`.  The source stores these in a Python `set`, whose
iteration order is unspecified; the declared literal order is used here, and
every claim exercised below depends only on inputs where at most one palette
name occurs, so the result is order-independent there. -/
def colorKeywords : List String :=
  ["red", "yellow", "green", "cyan", "blue", "magenta",
   "white", "black", "gray", "grey"]

/-- `self.shape_keywords`, an insertion-ordered dict in the source. -/
def shapeKeywords : List (String × List String) :=
  [("line", ["line", "lines"]),
   ("circle", ["circle", "circles"]),
   ("arc", ["arc", "arcs"]),
   ("rectangle", ["rectangle", "rect", "box", "square"]),
   ("polyline", ["polyline", "polygon", "path"]),
   ("text", ["text", "label", "annotation"]),
   ("hatch", ["hatch", "fill", "pattern"]),
   ("dimension", ["dimension", "measure", "measurement"])]

/-- `self.action_keywords["save"]`. -/
def saveActionKeywords : List String := ["save", "export", "write"]

/-- The keys of `self.shape_keywords` (the dict-membership test
`cmd_type in self.shape_keywords` ranges over them). -/
def shapeNames : List String := shapeKeywords.map Prod.fst

/-- `NLPProcessor._detect_command_type` (its argument is the already
lower-cased command). -/
def detectCommandType (command : String) : String :=
  if saveActionKeywords.any (fun k => strContainsSub command k) then "save"
  else
    match shapeKeywords.find? (fun p => p.2.any (fun k => strContainsSub command k)) with
    | some p => p.1
    | none => "unknown"

/-- `NLPProcessor._extract_color`: first palette name occurring as a
substring of the lower-cased command (see `colorKeywords` on ordering). -/
def extractColor (command : String) : Option String :=
  colorKeywords.find? (fun color => strContainsSub (strLower command) color)

/-! ### Parsed commands

The Python parser returns a dict; it is modelled as a record in which a
missing key is `none` (the source never stores `None` under any of these
keys, so the encoding is faithful). -/

/-- The dict returned by `parse_command` and helpers. -/
structure ParsedCmd where
  ptype : String
  original : Option String := none
  filename : Option String := none
  shape : Option String := none
  color : Option String := none
  layer : Option String := none
  error : Option String := none
  startPoint : Option (ℚ × ℚ) := none
  endPoint : Option (ℚ × ℚ) := none
  center : Option (ℚ × ℚ) := none
  radius : Option ℚ := none
  startAngle : Option ℚ := none
  endAngle : Option ℚ := none
  corner1 : Option (ℚ × ℚ) := none
  corner2 : Option (ℚ × ℚ) := none
  points : Option (List (ℚ × ℚ)) := none
  closed : Option Bool := none
  text : Option String := none
  height : Option ℚ := none
  position : Option (ℚ × ℚ) := none
  patternName : Option String := none
  outerLoopPoints : Option (List (ℚ × ℚ)) := none
  point1 : Option (ℚ × ℚ) := none
  point2 : Option (ℚ × ℚ) := none
  textPosition : Option (ℚ × ℚ) := none
deriving DecidableEq

/-- `[(numbers[i], numbers[i+1]) for i in range(0, len(numbers), 2)]`
(only applied under an even-length guard in the source). -/
def pairUp : List ℚ → List (ℚ × ℚ)
  | a :: b :: rest => (a, b) :: pairUp rest
  | _ => []

/-- `NLPProcessor._parse_line_params`, merged into the base dict. -/
def parseLineParams (command : String) (numbers : List ℚ) (base : ParsedCmd) : ParsedCmd :=
  match extractPoints command with
  | p1 :: p2 :: _ => { base with startPoint := some p1, endPoint := some p2 }
  | _ =>
    match numbers with
    | n0 :: n1 :: n2 :: n3 :: _ =>
      { base with startPoint := some (n0, n1), endPoint := some (n2, n3) }
    | _ => { base with error := some "Insufficient coordinates for line" }

/-- `NLPProcessor._parse_circle_params`. -/
def parseCircleParams (command : String) (numbers : List ℚ) (base : ParsedCmd) : ParsedCmd :=
  match extractPoints command with
  | p1 :: _ =>
    match keywordNumber command ['r','a','d','i','u','s'] with
    | some r => { base with center := some p1, radius := some r }
    | none =>
      match numbers with
      | _ :: _ :: n2 :: _ => { base with center := some p1, radius := some n2 }
      | _ => { base with error := some "Missing radius for circle" }
  | [] =>
    match numbers with
    | n0 :: n1 :: n2 :: _ => { base with center := some (n0, n1), radius := some n2 }
    | _ => { base with error := some "Insufficient parameters for circle" }

/-- `NLPProcessor._parse_arc_params`. -/
def parseArcParams (command : String) (numbers : List ℚ) (base : ParsedCmd) : ParsedCmd :=
  let points := extractPoints command
  let radiusM := keywordNumber command ['r','a','d','i','u','s']
  let saM := startAngleKw command
  let eaM := endAngleKw command
  match points, radiusM, saM, eaM with
  | p1 :: _, some r, some sa, some ea =>
    { base with center := some p1, radius := some r,
                startAngle := some sa, endAngle := some ea }
  | _, _, _, _ =>
    match numbers with
    | n0 :: n1 :: n2 :: n3 :: n4 :: _ =>
      { base with center := some (n0, n1), radius := some n2,
                  startAngle := some n3, endAngle := some n4 }
    | _ => { base with error := some "Insufficient parameters for arc" }

/-- `NLPProcessor._parse_rectangle_params`. -/
def parseRectangleParams (command : String) (numbers : List ℚ) (base : ParsedCmd) : ParsedCmd :=
  match extractPoints command with
  | p1 :: p2 :: _ => { base with corner1 := some p1, corner2 := some p2 }
  | _ =>
    match numbers with
    | n0 :: n1 :: n2 :: n3 :: _ =>
      { base with corner1 := some (n0, n1), corner2 := some (n2, n3) }
    | _ => { base with error := some "Insufficient coordinates for rectangle" }

/-- `NLPProcessor._parse_polyline_params`. -/
def parsePolylineParams (command : String) (numbers : List ℚ) (base : ParsedCmd) : ParsedCmd :=
  let points := extractPoints command
  let isClosed :=
    strContainsSub (strLower command) "closed" || strContainsSub (strLower command) "close"
  if 2 ≤ points.length then
    { base with points := some points, closed := some isClosed }
  else if 4 ≤ numbers.length ∧ numbers.length % 2 = 0 then
    { base with points := some (pairUp numbers), closed := some isClosed }
  else { base with error := some "Insufficient points for polyline" }

/-- `NLPProcessor._parse_text_params` (later dict writes overwrite earlier
ones, including the `error` key). -/
def parseTextParams (command : String) (numbers : List ℚ) (base : ParsedCmd) : ParsedCmd :=
  let points := extractPoints command
  let textM :=
    match extractQuoted command with
    | some t => some t
    | none => extractTextKw command
  let heightM := keywordNumber command ['h','e','i','g','h','t']
  let r1 :=
    match textM with
    | some t => { base with text := some (pyStrip t) }
    | none => { base with error := some "No text content found" }
  let r2 :=
    match points with
    | p1 :: _ => { r1 with position := some p1 }
    | [] =>
      match numbers with
      | n0 :: n1 :: _ => { r1 with position := some (n0, n1) }
      | _ => { r1 with error := some "No position specified for text" }
  match heightM with
  | some h => { r2 with height := some h }
  | none => r2

/-- `NLPProcessor._parse_hatch_params`. -/
def parseHatchParams (command : String) (numbers : List ℚ) (base : ParsedCmd) : ParsedCmd :=
  let points := extractPoints command
  let r1 :=
    if 3 ≤ points.length then { base with outerLoopPoints := some points }
    else if 6 ≤ numbers.length ∧ numbers.length % 2 = 0 then
      { base with outerLoopPoints := some (pairUp numbers) }
    else { base with error := some "Insufficient points for hatch boundary" }
  match patternKw command with
  | some p => { r1 with patternName := some p }
  | none => r1

/-- `NLPProcessor._parse_dimension_params`. -/
def parseDimensionParams (command : String) (numbers : List ℚ) (base : ParsedCmd) : ParsedCmd :=
  match extractPoints command with
  | p1 :: p2 :: p3 :: _ =>
    { base with point1 := some p1, point2 := some p2, textPosition := some p3 }
  | _ =>
    match numbers with
    | n0 :: n1 :: n2 :: n3 :: n4 :: n5 :: _ =>
      { base with point1 := some (n0, n1), point2 := some (n2, n3),
                  textPosition := some (n4, n5) }
    | _ => { base with error := some "Insufficient points for dimension" }

/-- `NLPProcessor._parse_save_command`. -/
def parseSaveCommand (command : String) : ParsedCmd :=
  { ptype := "save", filename := extractFilename command }

/-- `NLPProcessor._parse_draw_command` (the original, non-lowered command is
passed through, exactly as in the source). -/
def parseDrawCommand (command : String) (shape : String) : ParsedCmd :=
  let base : ParsedCmd :=
    { ptype := "draw", shape := some shape,
      color := extractColor command, layer := extractLayer command }
  let numbers := extractNumbers command
  if shape = "line" then parseLineParams command numbers base
  else if shape = "circle" then parseCircleParams command numbers base
  else if shape = "arc" then parseArcParams command numbers base
  else if shape = "rectangle" then parseRectangleParams command numbers base
  else if shape = "polyline" then parsePolylineParams command numbers base
  else if shape = "text" then parseTextParams command numbers base
  else if shape = "hatch" then parseHatchParams command numbers base
  else if shape = "dimension" then parseDimensionParams command numbers base
  else base

/-- `NLPProcessor.parse_command`. -/
def parseCommand (command : String) : ParsedCmd :=
  let commandLower := strLower command
  let cmdType := detectCommandType commandLower
  if cmdType = "save" then parseSaveCommand command
  else if shapeNames.contains cmdType then parseDrawCommand command cmdType
  else { ptype := "unknown", original := some command }

/-! ### The CAD controller (`cad_controller.py`, ezdxf backend)

The controller's dynamically typed `color` (and the slots that end up
receiving arbitrary parsed values through the dispatcher's positional
argument order) are modelled by `PyVal`; a Python `None` in such a slot is
`Option.none`.  The ezdxf document is modelled by its layer table and the
ordered list of entities created through `modelspace()`; each entity
records exactly the arguments the source hands to the corresponding ezdxf
factory call (ezdxf-internal validation and rendering are outside the
model boundary, as are the filesystem effects of saving). -/

/-- A dynamically typed Python value reaching the backend. -/
inductive PyVal
  | num (q : ℚ)
  | str (s : String)
deriving DecidableEq

/-- The `dxfattribs` dict assembled by `CADController._get_dxfattribs`. -/
structure DxfAttribs where
  layer : Option String
  color : Option PyVal
  lineweight : Option Int
deriving DecidableEq

/-- An entity added to `doc.modelspace()`, carrying the arguments of the
ezdxf call that created it. -/
inductive Entity
  | line (startPoint endPoint : List ℚ) (attribs : DxfAttribs)
  | circle (center : List ℚ) (radius : ℚ) (attribs : DxfAttribs)
  | arc (center : List ℚ) (radius startAngle endAngle : ℚ) (attribs : DxfAttribs)
  | lwpolyline (points : List (List ℚ)) (closed : Bool) (attribs : DxfAttribs)
  | text (content : String) (height : ℚ) (rotation : Option PyVal)
      (placement : List ℚ) (attribs : DxfAttribs)
  | hatch (patternName : String) (scale : Option PyVal)
      (boundary : List (List ℚ)) (attribs : DxfAttribs)
  | lineardim (startPoint endPoint textPos : List ℚ) (textHeight : Option PyVal)
      (attribs : DxfAttribs)
deriving DecidableEq

/-- The ezdxf document: layer table (name, color) plus modelspace
entities.  `ezdxf.new` starts with the default layer `"0"`. -/
structure Doc where
  layers : List (String × Int)
  entities : List Entity
deriving DecidableEq

/-- A fresh `ezdxf.new('R2010')` document. -/
def newDoc : Doc := { layers := [("0", 7)], entities := [] }

/-- `CADController` state: the `app` and `doc` handles. -/
structure CADController where
  app : Bool
  doc : Option Doc
deriving DecidableEq

/-- The state right after `CADController.__init__`. -/
def uninitController : CADController := { app := false, doc := none }

/-- `CADController.is_running`. -/
def isRunning (c : CADController) : Bool := c.app && c.doc.isSome

/-- `CADController.start_cad` via `_start_cad_ezdxf`. -/
def startCad (c : CADController) : Bool × CADController :=
  (true, { c with app := true, doc := some newDoc })

/-- The controller state used by concrete evaluations: a fresh session. -/
def startedController : CADController := (startCad uninitController).2

/-- `CADController._normalize_point` (points as lists of coordinates;
`tuple(point[:3])` is `List.take 3`). -/
def normalizePoint (point : List ℚ) : List ℚ :=
  if point.length = 2 then point ++ [0] else point.take 3

/-- `self.valid_lineweights`. -/
def validLineweights : List Int :=
  [0, 5, 9, 13, 15, 18, 20, 25, 30, 35, 40, 50, 53, 60, 70, 80, 90, 100,
   106, 120, 140, 158, 200, 211]

/-- `CADController.validate_lineweight` on a non-`None` argument. -/
def validateLineweight (lineweight : Int) : Int :=
  if lineweight ∈ validLineweights then lineweight else 0

/-- `CADController.create_layer` (ezdxf branch): create the layer only when
no layer of that name exists; always report success while running. -/
def createLayer (c : CADController) (layerName : String) (color : Int) :
    Bool × CADController :=
  match c.app, c.doc with
  | true, some d =>
    if d.layers.any (fun p => p.1 = layerName) then (true, c)
    else (true, { c with doc := some { d with layers := d.layers ++ [(layerName, color)] } })
  | _, _ => (false, c)

/-- `CADController._get_dxfattribs`.  `if layer:` is Python truthiness, so an
empty layer name is skipped; a supplied layer is first created-if-absent
with the default color 7; a supplied lineweight is validated. -/
def getDxfattribs (c : CADController) (layer : Option String) (color : Option PyVal)
    (lineweight : Option Int) : DxfAttribs × CADController :=
  let (c1, layerAttr) :=
    match layer with
    | some l => if l = "" then (c, none) else ((createLayer c l 7).2, some l)
    | none => (c, none)
  let lwAttr :=
    match lineweight with
    | some w => some (validateLineweight w)
    | none => none
  ({ layer := layerAttr, color := color, lineweight := lwAttr }, c1)

/-- Append an entity to the modelspace. -/
def addEntity (c : CADController) (e : Entity) : CADController :=
  match c.doc with
  | some d => { c with doc := some { d with entities := d.entities ++ [e] } }
  | none => c

/-- `CADController.draw_line` (ezdxf branch). -/
def drawLine (c : CADController) (startPoint endPoint : List ℚ) (layer : Option String)
    (color : Option PyVal) (lineweight : Option Int) : Option Entity × CADController :=
  if isRunning c then
    let sp := normalizePoint startPoint
    let ep := normalizePoint endPoint
    let (attribs, c1) := getDxfattribs c layer color lineweight
    let e := Entity.line sp ep attribs
    (some e, addEntity c1 e)
  else (none, c)

/-- `CADController.draw_circle` (ezdxf branch). -/
def drawCircle (c : CADController) (center : List ℚ) (radius : ℚ) (layer : Option String)
    (color : Option PyVal) (lineweight : Option Int) : Option Entity × CADController :=
  if isRunning c then
    let ctr := normalizePoint center
    let (attribs, c1) := getDxfattribs c layer color lineweight
    let e := Entity.circle ctr radius attribs
    (some e, addEntity c1 e)
  else (none, c)

/-- `CADController.draw_arc` (ezdxf branch; angles are passed to ezdxf in
degrees, unconverted). -/
def drawArc (c : CADController) (center : List ℚ) (radius startAngle endAngle : ℚ)
    (layer : Option String) (color : Option PyVal) (lineweight : Option Int) :
    Option Entity × CADController :=
  if isRunning c then
    let ctr := normalizePoint center
    let (attribs, c1) := getDxfattribs c layer color lineweight
    let e := Entity.arc ctr radius startAngle endAngle attribs
    (some e, addEntity c1 e)
  else (none, c)

/-- `CADController.draw_polyline` (ezdxf branch); `if not points or
len(points) < 2` is the single test `length < 2`.  `pline.close()` is the
`closed` flag of the stored polyline. -/
def drawPolyline (c : CADController) (points : List (List ℚ)) (closed : Bool)
    (layer : Option String) (color : Option PyVal) (lineweight : Option Int) :
    Option Entity × CADController :=
  if isRunning c then
    if points.length < 2 then (none, c)
    else
      let pts := points.map normalizePoint
      let (attribs, c1) := getDxfattribs c layer color lineweight
      let e := Entity.lwpolyline pts closed attribs
      (some e, addEntity c1 e)
  else (none, c)

/-- `CADController.draw_rectangle`: corners are normalized, the four corner
points are assembled, and the work is delegated to `draw_polyline` with
`closed=True`.  A normalized corner with fewer than three components makes
the source's tuple indexing raise, which the surrounding handler turns into
`None` with no state change. -/
def drawRectangle (c : CADController) (corner1 corner2 : List ℚ) (layer : Option String)
    (color : Option PyVal) (lineweight : Option Int) : Option Entity × CADController :=
  if isRunning c then
    match normalizePoint corner1, normalizePoint corner2 with
    | [x1, y1, z], [x2, y2, _] =>
      drawPolyline c [[x1, y1, z], [x2, y1, z], [x2, y2, z], [x1, y2, z]] true
        layer color lineweight
    | _, _ => (none, c)
  else (none, c)

/-- `CADController.draw_text` (ezdxf branch).  The `rotation` slot is
dynamically typed because the dispatcher feeds it a parsed value. -/
def drawText (c : CADController) (position : List ℚ) (content : String) (height : ℚ)
    (rotation : Option PyVal) (layer : Option String) (color : Option PyVal) :
    Option Entity × CADController :=
  if isRunning c then
    let pos := normalizePoint position
    let (attribs, c1) := getDxfattribs c layer color none
    let e := Entity.text content height rotation pos attribs
    (some e, addEntity c1 e)
  else (none, c)

/-- `CADController.draw_hatch` (ezdxf branch): requires three boundary
points, truncates each normalized point to its first two components
(`self._normalize_point(p)[:2]`), adds the hatch and then the closed
boundary polyline to the modelspace, and returns the hatch. -/
def drawHatch (c : CADController) (points : List (List ℚ)) (patternName : String)
    (scale : Option PyVal) (layer : Option String) (color : Option PyVal) :
    Option Entity × CADController :=
  if isRunning c = false ∨ points.length < 3 then (none, c)
  else
    let pts := points.map (fun p => (normalizePoint p).take 2)
    let (attribs, c1) := getDxfattribs c layer color none
    let h := Entity.hatch patternName scale pts attribs
    let b := Entity.lwpolyline pts true { layer := none, color := none, lineweight := none }
    (some h, addEntity (addEntity c1 h) b)

/-- `CADController.add_dimension` (ezdxf branch).  A missing text position
is computed from the midpoint; the `textheight` slot is dynamically typed
because the dispatcher feeds it a parsed value. -/
def addDimension (c : CADController) (point1 point2 : List ℚ)
    (textPosition : Option (List ℚ)) (textHeight : Option PyVal)
    (layer : Option String) (color : Option PyVal) : Option Entity × CADController :=
  if isRunning c then
    match normalizePoint point1, normalizePoint point2 with
    | [x1, y1, z1], [x2, y2, z2] =>
      let tpos :=
        match textPosition with
        | none => [(x1 + x2) / 2, (y1 + y2) / 2 + 5, 0]
        | some tp => normalizePoint tp
      let (attribs, c1) := getDxfattribs c layer color none
      let e := Entity.lineardim [x1, y1, z1] [x2, y2, z2] tpos textHeight attribs
      (some e, addEntity c1 e)
    | _, _ => (none, c)
  else (none, c)

/-- `CADController.save_drawing`: refuses when not running; the filesystem
write itself is outside the model boundary and is modelled as succeeding. -/
def saveDrawing (c : CADController) (filePath : Option String) : Bool × CADController :=
  if isRunning c then (true, c) else (false, c)

/-! ### The dispatcher (`server.process_natural_language_command`)

The Python function returns either a message string, the boolean result of
`save_drawing`, or the handle returned by a draw operation.  The draw
operations are called **positionally** as `draw_xxx(..., color, layer)`
against signatures whose trailing parameters are `(..., layer=None,
color=None, lineweight=None)` (and `(..., rotation, layer, color)` for
text, `(..., scale, layer, color)` for hatch, `(..., textheight, layer,
color)` for dimension), so the parsed color name lands in the `layer` /
`rotation` / `scale` / `textheight` parameter and the parsed layer name in
the `color` parameter.  The argument lists below reproduce that positional
binding exactly. -/

/-- The value returned by `process_natural_language_command`. -/
inductive DispatchResult
  | msg (s : String)
  | saved (b : Bool)
  | handle (e : Option Entity)
deriving DecidableEq

/-- Whether a dispatch outcome is an explanatory message. -/
def DispatchResult.isMsgResult : DispatchResult → Bool
  | .msg _ => true
  | _ => false

/-- A parsed 2-tuple point as passed on to the controller. -/
def pairPt (p : ℚ × ℚ) : List ℚ := [p.1, p.2]

/-- The body of `process_natural_language_command` after parsing. -/
def route (c : CADController) (command : String) (parsed : ParsedCmd) :
    DispatchResult × CADController :=
  if parsed.ptype = "unknown" then
    (.msg ("Could not understand command: " ++ command), c)
  else if parsed.error.isSome then
    (.msg ("Error parsing command: " ++ parsed.error.getD ""), c)
  else if parsed.ptype = "save" then
    let (b, c1) := saveDrawing c parsed.filename
    (.saved b, c1)
  else if parsed.ptype = "draw" then
    let shape := parsed.shape.getD ""
    let color := parsed.color
    let layer := parsed.layer
    if shape = "line" then
      match parsed.startPoint, parsed.endPoint with
      | some sp, some ep =>
        let (e, c1) := drawLine c (pairPt sp) (pairPt ep) color (layer.map PyVal.str) none
        (.handle e, c1)
      | _, _ => (.msg "Missing coordinates for line", c)
    else if shape = "circle" then
      match parsed.center, parsed.radius with
      | some ctr, some r =>
        let (e, c1) := drawCircle c (pairPt ctr) r color (layer.map PyVal.str) none
        (.handle e, c1)
      | _, _ => (.msg "Missing parameters for circle", c)
    else if shape = "arc" then
      match parsed.center, parsed.radius, parsed.startAngle, parsed.endAngle with
      | some ctr, some r, some sa, some ea =>
        let (e, c1) := drawArc c (pairPt ctr) r sa ea color (layer.map PyVal.str) none
        (.handle e, c1)
      | _, _, _, _ => (.msg "Missing parameters for arc", c)
    else if shape = "rectangle" then
      match parsed.corner1, parsed.corner2 with
      | some k1, some k2 =>
        let (e, c1) := drawRectangle c (pairPt k1) (pairPt k2) color (layer.map PyVal.str) none
        (.handle e, c1)
      | _, _ => (.msg "Missing coordinates for rectangle", c)
    else if shape = "polyline" then
      match parsed.points with
      | some pts =>
        let (e, c1) := drawPolyline c (pts.map pairPt) (parsed.closed.getD false)
          color (layer.map PyVal.str) none
        (.handle e, c1)
      | none => (.msg "Missing points for polyline", c)
    else if shape = "text" then
      match parsed.position, parsed.text with
      | some pos, some txt =>
        let (e, c1) := drawText c (pairPt pos) txt (parsed.height.getD (5 / 2))
          (color.map PyVal.str) layer none
        (.handle e, c1)
      | _, _ => (.msg "Missing parameters for text", c)
    else if shape = "hatch" then
      match parsed.outerLoopPoints with
      | some pts =>
        let (e, c1) := drawHatch c (pts.map pairPt) (parsed.patternName.getD "ANSI31")
          (color.map PyVal.str) layer none
        (.handle e, c1)
      | none => (.msg "Missing boundary points for hatch", c)
    else if shape = "dimension" then
      match parsed.point1, parsed.point2, parsed.textPosition with
      | some p1, some p2, some tp =>
        let (e, c1) := addDimension c (pairPt p1) (pairPt p2) (some (pairPt tp))
          (color.map PyVal.str) layer none
        (.handle e, c1)
      | _, _, _ => (.msg "Missing points for dimension", c)
    else (.msg ("Processed command: " ++ command), c)
  else (.msg ("Processed command: " ++ command), c)

/-- `server.process_natural_language_command`. -/
def processNaturalLanguageCommand (c : CADController) (command : String) :
    DispatchResult × CADController :=
  route c command (parseCommand command)

/-! ### Observations used by the claims -/

/-- The classification of a parsed command: the shape for a draw command,
otherwise the command type itself. -/
def classificationOf (p : ParsedCmd) : String :=
  if p.ptype = "draw" then p.shape.getD "unknown" else p.ptype

/-- The specification-side classifier, written from the specification's
words: classify as save if the lower-cased input contains any of "save",
"export", "write" as a substring, this test taking precedence over all
shape keywords; otherwise as the first shape, in the fixed declared order
line, circle, arc, rectangle, polyline, text, hatch, dimension, one of
whose keyword synonyms occurs as a substring; otherwise as unknown. -/
def specClassify (s : String) : String :=
  if strContainsSub s "save" || strContainsSub s "export" || strContainsSub s "write" then
    "save"
  else if strContainsSub s "line" || strContainsSub s "lines" then "line"
  else if strContainsSub s "circle" || strContainsSub s "circles" then "circle"
  else if strContainsSub s "arc" || strContainsSub s "arcs" then "arc"
  else if strContainsSub s "rectangle" || strContainsSub s "rect" ||
      strContainsSub s "box" || strContainsSub s "square" then "rectangle"
  else if strContainsSub s "polyline" || strContainsSub s "polygon" ||
      strContainsSub s "path" then "polyline"
  else if strContainsSub s "text" || strContainsSub s "label" ||
      strContainsSub s "annotation" then "text"
  else if strContainsSub s "hatch" || strContainsSub s "fill" ||
      strContainsSub s "pattern" then "hatch"
  else if strContainsSub s "dimension" || strContainsSub s "measure" ||
      strContainsSub s "measurement" then "dimension"
  else "unknown"

/-- The caller-supplied point arguments recorded in an entity — exactly the
point values the source hands to the ezdxf factory call. -/
def entityPoints : Entity → List (List ℚ)
  | .line sp ep _ => [sp, ep]
  | .circle ctr _ _ => [ctr]
  | .arc ctr _ _ _ _ => [ctr]
  | .lwpolyline pts _ _ => pts
  | .text _ _ _ pos _ => [pos]
  | .hatch _ _ boundary _ => boundary
  | .lineardim sp ep tpos _ _ => [sp, ep, tpos]

/-- Number of layers of a given name in the document. -/
def layerCount (c : CADController) (layerName : String) : Nat :=
  match c.doc with
  | some d => (d.layers.filter (fun p => p.1 = layerName)).length
  | none => 0

/-! ## Theorems -/

/-- Claim C9: the point-normalization function maps every 2-component point
(x, y) to (x, y, 0.0) and is the identity on every 3-component point. -/
theorem c9_normalize_point (x y z : ℚ) :
    normalizePoint [x, y] = [x, y, 0] ∧ normalizePoint [x, y, z] = [x, y, z] := by
  constructor <;> simp [normalizePoint]

/-- Claim C3: with no active session (the app or document handle absent),
every draw operation returns `None` and `save_drawing` returns `False`,
without raising and without modifying any controller state. -/
theorem c3_fail_closed_without_session (c : CADController) (h : isRunning c = false)
    (sp ep ctr k1 k2 pos p1 p2 : List ℚ) (pts : List (List ℚ))
    (r sa ea ht : ℚ) (cl : Bool) (txt pat : String)
    (rot sc th colv : Option PyVal) (lay fp : Option String)
    (tp : Option (List ℚ)) (lw : Option Int) :
    drawLine c sp ep lay colv lw = (none, c) ∧
    drawCircle c ctr r lay colv lw = (none, c) ∧
    drawArc c ctr r sa ea lay colv lw = (none, c) ∧
    drawRectangle c k1 k2 lay colv lw = (none, c) ∧
    drawPolyline c pts cl lay colv lw = (none, c) ∧
    drawText c pos txt ht rot lay colv = (none, c) ∧
    drawHatch c pts pat sc lay colv = (none, c) ∧
    addDimension c p1 p2 tp th lay colv = (none, c) ∧
    saveDrawing c fp = (false, c) := by
  refine ⟨?_, ?_, ?_, ?_, ?_, ?_, ?_, ?_, ?_⟩ <;>
    simp [drawLine, drawCircle, drawArc, drawRectangle, drawPolyline, drawText,
      drawHatch, addDimension, saveDrawing, h]

/-- Witness for C3 at a concrete unstarted controller and concrete
arguments. -/
theorem c3_witness :
    isRunning uninitController = false ∧
    drawLine uninitController [0, 0] [1, 1] none none none = (none, uninitController) ∧
    saveDrawing uninitController none = (false, uninitController) :=
  have h := c3_fail_closed_without_session uninitController (by decide)
    [0, 0] [1, 1] [0, 0] [0, 0] [1, 1] [0, 0] [0, 0] [1, 1] [[0, 0], [1, 1]]
    1 0 90 (5 / 2) false "t" "SOLID" none none none none none none none none
  ⟨by decide, h.1, h.2.2.2.2.2.2.2.2⟩

/-- Claim C10: `draw_polyline` with fewer than two points returns `None`
even in a running session and adds no entity to the document. -/
theorem c10_polyline_needs_two_points (c : CADController) (h : isRunning c = true)
    (pts : List (List ℚ)) (hlen : pts.length < 2) (cl : Bool)
    (lay : Option String) (colv : Option PyVal) (lw : Option Int) :
    drawPolyline c pts cl lay colv lw = (none, c) := by
  simp [drawPolyline, h, hlen]

/-- Witness for C10 at a concrete running controller and a one-point
list. -/
theorem c10_witness :
    isRunning startedController = true ∧
    ([[(0 : ℚ), 0]] : List (List ℚ)).length < 2 ∧
    drawPolyline startedController [[0, 0]] false none none none = (none, startedController) :=
  ⟨by decide, by decide,
    c10_polyline_needs_two_points startedController (by decide) [[0, 0]] (by decide)
      false none none none⟩

/-- Claim C6: in a running session, `draw_rectangle` on corners
(x1, y1, z) and (x2, y2, _) produces exactly the result of `draw_polyline`
on the four corner points with `closed = True` and the same layer, color
and lineweight arguments — it creates no distinct rectangle entity kind. -/
theorem c6_rectangle_is_closed_polyline (c : CADController) (h : isRunning c = true)
    (x1 y1 z x2 y2 w : ℚ) (lay : Option String) (colv : Option PyVal) (lw : Option Int) :
    drawRectangle c [x1, y1, z] [x2, y2, w] lay colv lw =
      drawPolyline c [[x1, y1, z], [x2, y1, z], [x2, y2, z], [x1, y2, z]] true
        lay colv lw := by
  simp [drawRectangle, h, normalizePoint]

/-- Witness for C6 at a concrete running controller and corners. -/
theorem c6_witness :
    isRunning startedController = true ∧
    drawRectangle startedController [0, 0, 0] [4, 3, 0] none none none =
      drawPolyline startedController [[0, 0, 0], [4, 0, 0], [4, 3, 0], [0, 3, 0]] true
        none none none :=
  ⟨by decide,
    c6_rectangle_is_closed_polyline startedController (by decide) 0 0 0 4 3 0
      none none none⟩

/-- Claim C8: for every parsed command that carries an error field, and for
every command classified as unknown, the dispatcher returns an explanatory
message without invoking any drawing-backend operation, leaving the backend
state unchanged. -/
theorem c8_dispatcher_short_circuits (c : CADController) (command : String)
    (parsed : ParsedCmd) (h : parsed.ptype = "unknown" ∨ parsed.error.isSome = true) :
    (route c command parsed).2 = c ∧
    (route c command parsed).1.isMsgResult = true := by
  by_cases hu : parsed.ptype = "unknown"
  · simp [route, hu, DispatchResult.isMsgResult]
  · rcases h with h | h
    · exact absurd h hu
    · simp [route, hu, h, DispatchResult.isMsgResult]

/-- Witness for C8: the concrete command "draw a line" parses to a draw
command carrying an error, and dispatching it leaves the running backend
untouched. -/
theorem c8_witness :
    (parseCommand "draw a line").error.isSome = true ∧
    (route startedController "draw a line" (parseCommand "draw a line")).2 =
      startedController :=
  ⟨by decide,
    (c8_dispatcher_short_circuits startedController "draw a line"
      (parseCommand "draw a line") (Or.inr (by decide))).1⟩

/-- Helper: a layer-table `any` hit gives a positive filter count. -/
theorem filter_pos_of_any {l : List (String × Int)} {x : String}
    (h : l.any (fun p => p.1 = x) = true) :
    0 < (l.filter (fun p => p.1 = x)).length := by
  obtain ⟨a, ha, hpa⟩ := List.any_eq_true.mp h
  exact List.length_pos.mpr (List.ne_nil_of_mem (List.mem_filter.mpr ⟨ha, hpa⟩))

/-- Helper: a failed layer-table `any` gives an empty filter. -/
theorem filter_nil_of_not_any {l : List (String × Int)} {x : String}
    (h : l.any (fun p => p.1 = x) = false) :
    l.filter (fun p => p.1 = x) = [] := by
  refine List.filter_eq_nil_iff.mpr (fun a ha => ?_)
  intro hpa
  exact (Bool.eq_false_iff.mp h) (List.any_eq_true.mpr ⟨a, ha, hpa⟩)

/-- Claim C7: with an active session, calling `create_layer` twice with the
same name (any colors) leaves exactly one layer of that name, both calls
return `True`, and the second call does not modify the document. -/
theorem c7_create_layer_idempotent (c : CADController) (x : String) (col1 col2 : Int)
    (h : isRunning c = true) (hcount : layerCount c x ≤ 1) :
    (createLayer c x col1).1 = true ∧
    (createLayer (createLayer c x col1).2 x col2).1 = true ∧
    (createLayer (createLayer c x col1).2 x col2).2 = (createLayer c x col1).2 ∧
    layerCount (createLayer (createLayer c x col1).2 x col2).2 x = 1 := by
  obtain ⟨app, doc⟩ := c
  simp only [isRunning, Bool.and_eq_true] at h
  obtain ⟨happ, hdoc⟩ := h
  subst happ
  obtain ⟨d, rfl⟩ := Option.isSome_iff_exists.mp hdoc
  by_cases hany : d.layers.any (fun p => p.1 = x) = true
  · have hpos := filter_pos_of_any hany
    simp only [layerCount] at hcount
    simp [createLayer, hany, layerCount]
    omega
  · have hnil := filter_nil_of_not_any (Bool.eq_false_iff.mpr hany)
    have hany2 : ((d.layers ++ [(x, col1)]).any (fun p => p.1 = x)) = true := by
      simp [List.any_append]
    simp [createLayer, hany, hany2, layerCount, List.filter_append, hnil]

/-- Witness for C7 at a fresh session and the layer name "walls". -/
theorem c7_witness :
    isRunning startedController = true ∧
    layerCount startedController "walls" ≤ 1 ∧
    layerCount (createLayer (createLayer startedController "walls" 1).2 "walls" 2).2
      "walls" = 1 :=
  ⟨by decide, by decide,
    (c7_create_layer_idempotent startedController "walls" 1 2 (by decide)
      (by decide)).2.2.2⟩

/-- Claim C4: for every command classified as a line from which at least
two coordinate pairs are extracted, the line parser takes the start point
from the first pair and the end point from the second, ignoring the flat
numeric sequence (it is universally quantified here); in particular the
round trip on "draw a red line from (0,0) to (10,10)" yields a draw/line
command with color "red", start (0,0) and end (10,10). -/
theorem c4_line_parser_prefers_point_pairs :
    (∀ (command : String) (numbers : List ℚ) (p1 p2 : ℚ × ℚ) (rest : List (ℚ × ℚ))
        (base : ParsedCmd),
        detectCommandType (strLower command) = "line" →
        extractPoints command = p1 :: p2 :: rest →
        parseLineParams command numbers base =
          { base with startPoint := some p1, endPoint := some p2 }) ∧
    parseCommand "draw a red line from (0,0) to (10,10)" =
      { ptype := "draw", shape := some "line", color := some "red", layer := none,
        startPoint := some (0, 0), endPoint := some (10, 10) } := by
  constructor
  · intro command numbers p1 p2 rest base _hcls hpts
    unfold parseLineParams
    rw [hpts]
  · decide

/-- Witness for C4: a line command containing two explicit pairs and a
four-number flat sequence, at which the flat sequence is ignored. -/
theorem c4_witness :
    detectCommandType (strLower "a line (1,2) (3,4) 9 9 9 9") = "line" ∧
    extractPoints "a line (1,2) (3,4) 9 9 9 9" = [(1, 2), (3, 4)] ∧
    parseLineParams "a line (1,2) (3,4) 9 9 9 9" [9, 9, 9, 9] { ptype := "draw" } =
      { ptype := "draw", startPoint := some (1, 2), endPoint := some (3, 4) } :=
  ⟨by decide, by decide,
    c4_line_parser_prefers_point_pairs.1 "a line (1,2) (3,4) 9 9 9 9" [9, 9, 9, 9]
      (1, 2) (3, 4) [] { ptype := "draw" } (by decide) (by decide)⟩

/-- Helper: normalizing a 2- or 3-component point yields 3 components. -/
theorem normalizePoint_len3 {p : List ℚ} (h : p.length = 2 ∨ p.length = 3) :
    (normalizePoint p).length = 3 := by
  rcases h with h | h <;> simp [normalizePoint, h]

/-- Helper: every point stored by a successful `drawPolyline` is the
normalization of a supplied point and has 3 components when all supplied
points have 2 or 3. -/
theorem drawPolyline_points_len3 (c : CADController) (pts : List (List ℚ)) (cl : Bool)
    (lay : Option String) (colv : Option PyVal) (lw : Option Int) (e : Entity)
    (hp : ∀ p ∈ pts, p.length = 2 ∨ p.length = 3)
    (he : (drawPolyline c pts cl lay colv lw).1 = some e) :
    (entityPoints e).all (fun p => p.length == 3) = true := by
  by_cases hr : isRunning c = true
  · by_cases hlen : pts.length < 2
    · simp [drawPolyline, hr, hlen] at he
    · simp [drawPolyline, hr, hlen] at he
      subst he
      simp only [entityPoints, List.all_eq_true, List.mem_map]
      rintro q ⟨p, hpmem, rfl⟩
      simp [normalizePoint_len3 (hp p hpmem)]
  · simp [drawPolyline, Bool.eq_false_iff.mpr hr] at he

/-- Claim C5 (amended): for line, circle, arc, rectangle, polyline, text
and dimension, every caller-supplied point with 2 or 3 components is used
in the backend call in its 3-component normalized form; `draw_hatch`
however truncates each normalized point to its first two components before
the backend call, so its used points have exactly 2 components. -/
theorem c5_amended_points_arity (c : CADController) :
    (∀ (sp ep : List ℚ) (lay : Option String) (colv : Option PyVal) (lw : Option Int)
        (e : Entity), (sp.length = 2 ∨ sp.length = 3) → (ep.length = 2 ∨ ep.length = 3) →
        (drawLine c sp ep lay colv lw).1 = some e →
        (entityPoints e).all (fun p => p.length == 3) = true) ∧
    (∀ (ctr : List ℚ) (r : ℚ) (lay : Option String) (colv : Option PyVal) (lw : Option Int)
        (e : Entity), (ctr.length = 2 ∨ ctr.length = 3) →
        (drawCircle c ctr r lay colv lw).1 = some e →
        (entityPoints e).all (fun p => p.length == 3) = true) ∧
    (∀ (ctr : List ℚ) (r sa ea : ℚ) (lay : Option String) (colv : Option PyVal)
        (lw : Option Int) (e : Entity), (ctr.length = 2 ∨ ctr.length = 3) →
        (drawArc c ctr r sa ea lay colv lw).1 = some e →
        (entityPoints e).all (fun p => p.length == 3) = true) ∧
    (∀ (k1 k2 : List ℚ) (lay : Option String) (colv : Option PyVal) (lw : Option Int)
        (e : Entity), (k1.length = 2 ∨ k1.length = 3) → (k2.length = 2 ∨ k2.length = 3) →
        (drawRectangle c k1 k2 lay colv lw).1 = some e →
        (entityPoints e).all (fun p => p.length == 3) = true) ∧
    (∀ (pts : List (List ℚ)) (cl : Bool) (lay : Option String) (colv : Option PyVal)
        (lw : Option Int) (e : Entity), (∀ p ∈ pts, p.length = 2 ∨ p.length = 3) →
        (drawPolyline c pts cl lay colv lw).1 = some e →
        (entityPoints e).all (fun p => p.length == 3) = true) ∧
    (∀ (pos : List ℚ) (txt : String) (ht : ℚ) (rot : Option PyVal) (lay : Option String)
        (colv : Option PyVal) (e : Entity), (pos.length = 2 ∨ pos.length = 3) →
        (drawText c pos txt ht rot lay colv).1 = some e →
        (entityPoints e).all (fun p => p.length == 3) = true) ∧
    (∀ (p1 p2 : List ℚ) (tp : Option (List ℚ)) (th : Option PyVal) (lay : Option String)
        (colv : Option PyVal) (e : Entity),
        (p1.length = 2 ∨ p1.length = 3) → (p2.length = 2 ∨ p2.length = 3) →
        (∀ q ∈ tp, q.length = 2 ∨ q.length = 3) →
        (addDimension c p1 p2 tp th lay colv).1 = some e →
        (entityPoints e).all (fun p => p.length == 3) = true) ∧
    (∀ (pts : List (List ℚ)) (pat : String) (sc : Option PyVal) (lay : Option String)
        (colv : Option PyVal) (e : Entity), (∀ p ∈ pts, p.length = 2 ∨ p.length = 3) →
        (drawHatch c pts pat sc lay colv).1 = some e →
        (entityPoints e).all (fun p => p.length == 2) = true) := by
  refine ⟨?_, ?_, ?_, ?_, ?_, ?_, ?_, ?_⟩
  · intro sp ep lay colv lw e hsp hep he
    by_cases hr : isRunning c = true
    · simp [drawLine, hr] at he
      subst he
      simp [entityPoints, normalizePoint_len3 hsp, normalizePoint_len3 hep]
    · simp [drawLine, Bool.eq_false_iff.mpr hr] at he
  · intro ctr r lay colv lw e hc he
    by_cases hr : isRunning c = true
    · simp [drawCircle, hr] at he
      subst he
      simp [entityPoints, normalizePoint_len3 hc]
    · simp [drawCircle, Bool.eq_false_iff.mpr hr] at he
  · intro ctr r sa ea lay colv lw e hc he
    by_cases hr : isRunning c = true
    · simp [drawArc, hr] at he
      subst he
      simp [entityPoints, normalizePoint_len3 hc]
    · simp [drawArc, Bool.eq_false_iff.mpr hr] at he
  · intro k1 k2 lay colv lw e h1 h2 he
    by_cases hr : isRunning c = true
    · obtain ⟨x1, y1, z, hn1⟩ := List.length_eq_three.mp (normalizePoint_len3 h1)
      obtain ⟨x2, y2, w, hn2⟩ := List.length_eq_three.mp (normalizePoint_len3 h2)
      rw [drawRectangle] at he
      rw [hr] at he
      simp only [if_true, hn1, hn2] at he
      apply drawPolyline_points_len3 c _ _ _ _ _ _ _ he
      intro p hp
      simp at hp
      rcases hp with rfl | rfl | rfl | rfl <;> simp
    · simp [drawRectangle, Bool.eq_false_iff.mpr hr] at he
  · exact drawPolyline_points_len3 c
  · intro pos txt ht rot lay colv e hpos he
    by_cases hr : isRunning c = true
    · simp [drawText, hr] at he
      subst he
      simp [entityPoints, normalizePoint_len3 hpos]
    · simp [drawText, Bool.eq_false_iff.mpr hr] at he
  · intro p1 p2 tp th lay colv e h1 h2 htp he
    by_cases hr : isRunning c = true
    · obtain ⟨x1, y1, z1, hn1⟩ := List.length_eq_three.mp (normalizePoint_len3 h1)
      obtain ⟨x2, y2, z2, hn2⟩ := List.length_eq_three.mp (normalizePoint_len3 h2)
      rw [addDimension, hr] at he
      simp only [if_true, hn1, hn2] at he
      replace he := Option.some.inj he
      subst he
      cases tp with
      | none => simp [entityPoints]
      | some q =>
        simp only [entityPoints, List.all_cons, List.all_nil]
        simp [normalizePoint_len3 (htp q (by simp))]
    · simp [addDimension, Bool.eq_false_iff.mpr hr] at he
  · intro pts pat sc lay colv e hp he
    by_cases hg : isRunning c = false ∨ pts.length < 3
    · simp only [drawHatch, if_pos hg] at he
      exact absurd he (by simp)
    · simp only [drawHatch, if_neg hg] at he
      replace he := Option.some.inj he
      subst he
      simp only [entityPoints, List.all_eq_true, List.mem_map]
      rintro q ⟨p, hpm, rfl⟩
      have := normalizePoint_len3 (hp p hpm)
      simp [List.length_take, this]

/-- Counterexample for claim C5 as stated: `draw_hatch` on three supplied
3-component points produces a backend call whose used boundary points each
have 2 components, not 3. -/
theorem c5_counterexample :
    ((drawHatch startedController [[0, 0, 0], [10, 0, 0], [10, 10, 0]] "SOLID"
        (some (PyVal.num 1)) none none).1.map
      (fun e => (entityPoints e).map List.length)) = some [2, 2, 2] := by
  decide

/-- Witness for the amended C5 at a concrete line call. -/
theorem c5_witness :
    (entityPoints (Entity.line [1, 2, 0] [3, 4, 5]
      { layer := none, color := none, lineweight := none })).all
        (fun p => p.length == 3) = true :=
  (c5_amended_points_arity startedController).1 [1, 2] [3, 4, 5] none none none _
    (Or.inl (by decide)) (Or.inr (by decide)) (by decide)


/-- Helper: the line parser leaves the command kind and shape fields intact. -/
theorem parseLineParams_keeps_kind (command : String) (numbers : List ℚ) (base : ParsedCmd) :
    (parseLineParams command numbers base).ptype = base.ptype ∧
    (parseLineParams command numbers base).shape = base.shape := by
  constructor <;> (simp only [parseLineParams]; repeat' split) <;> rfl

/-- Helper: the circle parser leaves the command kind and shape fields intact. -/
theorem parseCircleParams_keeps_kind (command : String) (numbers : List ℚ) (base : ParsedCmd) :
    (parseCircleParams command numbers base).ptype = base.ptype ∧
    (parseCircleParams command numbers base).shape = base.shape := by
  constructor <;> (simp only [parseCircleParams]; repeat' split) <;> rfl

/-- Helper: the arc parser leaves the command kind and shape fields intact. -/
theorem parseArcParams_keeps_kind (command : String) (numbers : List ℚ) (base : ParsedCmd) :
    (parseArcParams command numbers base).ptype = base.ptype ∧
    (parseArcParams command numbers base).shape = base.shape := by
  constructor <;> (simp only [parseArcParams]; repeat' split) <;> rfl

/-- Helper: the rectangle parser leaves the command kind and shape fields intact. -/
theorem parseRectangleParams_keeps_kind (command : String) (numbers : List ℚ) (base : ParsedCmd) :
    (parseRectangleParams command numbers base).ptype = base.ptype ∧
    (parseRectangleParams command numbers base).shape = base.shape := by
  constructor <;> (simp only [parseRectangleParams]; repeat' split) <;> rfl

/-- Helper: the polyline parser leaves the command kind and shape fields intact. -/
theorem parsePolylineParams_keeps_kind (command : String) (numbers : List ℚ) (base : ParsedCmd) :
    (parsePolylineParams command numbers base).ptype = base.ptype ∧
    (parsePolylineParams command numbers base).shape = base.shape := by
  constructor <;> (simp only [parsePolylineParams]; repeat' split) <;> rfl

/-- Helper: the text parser leaves the command kind and shape fields intact. -/
theorem parseTextParams_keeps_kind (command : String) (numbers : List ℚ) (base : ParsedCmd) :
    (parseTextParams command numbers base).ptype = base.ptype ∧
    (parseTextParams command numbers base).shape = base.shape := by
  constructor <;> (simp only [parseTextParams]; repeat' split) <;> rfl

/-- Helper: the hatch parser leaves the command kind and shape fields intact. -/
theorem parseHatchParams_keeps_kind (command : String) (numbers : List ℚ) (base : ParsedCmd) :
    (parseHatchParams command numbers base).ptype = base.ptype ∧
    (parseHatchParams command numbers base).shape = base.shape := by
  constructor <;> (simp only [parseHatchParams]; repeat' split) <;> rfl

/-- Helper: the dimension parser leaves the command kind and shape fields intact. -/
theorem parseDimensionParams_keeps_kind (command : String) (numbers : List ℚ) (base : ParsedCmd) :
    (parseDimensionParams command numbers base).ptype = base.ptype ∧
    (parseDimensionParams command numbers base).shape = base.shape := by
  constructor <;> (simp only [parseDimensionParams]; repeat' split) <;> rfl

/-- Helper: classification is invariant under the line parser. -/
theorem classificationOf_parseLineParams (cmd : String) (ns : List ℚ) (b : ParsedCmd) :
    classificationOf (parseLineParams cmd ns b) = classificationOf b := by
  unfold classificationOf
  rw [(parseLineParams_keeps_kind cmd ns b).1, (parseLineParams_keeps_kind cmd ns b).2]

/-- Helper: classification is invariant under the circle parser. -/
theorem classificationOf_parseCircleParams (cmd : String) (ns : List ℚ) (b : ParsedCmd) :
    classificationOf (parseCircleParams cmd ns b) = classificationOf b := by
  unfold classificationOf
  rw [(parseCircleParams_keeps_kind cmd ns b).1, (parseCircleParams_keeps_kind cmd ns b).2]

/-- Helper: classification is invariant under the arc parser. -/
theorem classificationOf_parseArcParams (cmd : String) (ns : List ℚ) (b : ParsedCmd) :
    classificationOf (parseArcParams cmd ns b) = classificationOf b := by
  unfold classificationOf
  rw [(parseArcParams_keeps_kind cmd ns b).1, (parseArcParams_keeps_kind cmd ns b).2]

/-- Helper: classification is invariant under the rectangle parser. -/
theorem classificationOf_parseRectangleParams (cmd : String) (ns : List ℚ) (b : ParsedCmd) :
    classificationOf (parseRectangleParams cmd ns b) = classificationOf b := by
  unfold classificationOf
  rw [(parseRectangleParams_keeps_kind cmd ns b).1, (parseRectangleParams_keeps_kind cmd ns b).2]

/-- Helper: classification is invariant under the polyline parser. -/
theorem classificationOf_parsePolylineParams (cmd : String) (ns : List ℚ) (b : ParsedCmd) :
    classificationOf (parsePolylineParams cmd ns b) = classificationOf b := by
  unfold classificationOf
  rw [(parsePolylineParams_keeps_kind cmd ns b).1, (parsePolylineParams_keeps_kind cmd ns b).2]

/-- Helper: classification is invariant under the text parser. -/
theorem classificationOf_parseTextParams (cmd : String) (ns : List ℚ) (b : ParsedCmd) :
    classificationOf (parseTextParams cmd ns b) = classificationOf b := by
  unfold classificationOf
  rw [(parseTextParams_keeps_kind cmd ns b).1, (parseTextParams_keeps_kind cmd ns b).2]

/-- Helper: classification is invariant under the hatch parser. -/
theorem classificationOf_parseHatchParams (cmd : String) (ns : List ℚ) (b : ParsedCmd) :
    classificationOf (parseHatchParams cmd ns b) = classificationOf b := by
  unfold classificationOf
  rw [(parseHatchParams_keeps_kind cmd ns b).1, (parseHatchParams_keeps_kind cmd ns b).2]

/-- Helper: classification is invariant under the dimension parser. -/
theorem classificationOf_parseDimensionParams (cmd : String) (ns : List ℚ) (b : ParsedCmd) :
    classificationOf (parseDimensionParams cmd ns b) = classificationOf b := by
  unfold classificationOf
  rw [(parseDimensionParams_keeps_kind cmd ns b).1, (parseDimensionParams_keeps_kind cmd ns b).2]

/-- Helper: a draw command parsed for a given shape classifies as that shape. -/
theorem classificationOf_parseDrawCommand (command : String) (shape : String) :
    classificationOf (parseDrawCommand command shape) = shape := by
  unfold parseDrawCommand
  repeat' split
  all_goals
    simp only [classificationOf_parseLineParams, classificationOf_parseCircleParams,
      classificationOf_parseArcParams, classificationOf_parseRectangleParams,
      classificationOf_parsePolylineParams, classificationOf_parseTextParams,
      classificationOf_parseHatchParams, classificationOf_parseDimensionParams]
  all_goals simp [classificationOf]

/-- Helper: the detector returns save, a shape key, or unknown. -/
theorem detectCommandType_range (s : String) :
    detectCommandType s = "save" ∨ shapeNames.contains (detectCommandType s) = true ∨
      detectCommandType s = "unknown" := by
  unfold detectCommandType
  split
  · exact Or.inl rfl
  · split
    · rename_i p hp
      refine Or.inr (Or.inl ?_)
      have hmem := List.mem_of_find?_eq_some hp
      have : p.1 ∈ shapeNames := List.mem_map_of_mem Prod.fst hmem
      exact List.elem_eq_true_of_mem this
    · exact Or.inr (Or.inr rfl)

/-- Helper: the classification of a parsed command is exactly the detector output on the lower-cased input. -/
theorem classificationOf_parseCommand (command : String) :
    classificationOf (parseCommand command) = detectCommandType (strLower command) := by
  unfold parseCommand
  rcases detectCommandType_range (strLower command) with h | h | h
  · simp [h, parseSaveCommand, classificationOf]
  · by_cases hs : detectCommandType (strLower command) = "save"
    · simp [hs, parseSaveCommand, classificationOf]
    · have hmem : detectCommandType (strLower command) ∈ shapeNames :=
        (List.elem_iff).mp h
      simp [hs, hmem, classificationOf_parseDrawCommand]
  · have hmem : "unknown" ∉ shapeNames := by decide
    simp [h, hmem, classificationOf]


/-- Helper: the transcribed detector agrees with the specification-side classifier on every string. -/
theorem detectCommandType_eq_specClassify (s : String) :
    detectCommandType s = specClassify s := by
  unfold detectCommandType specClassify saveActionKeywords shapeKeywords
  simp only [List.any_cons, List.any_nil, Bool.or_false, List.find?, Bool.or_assoc]
  cases h0 : (strContainsSub s "save" || (strContainsSub s "export" || strContainsSub s "write")) with
  | true => simp
  | false =>
    simp only [Bool.false_eq_true, if_false]
    cases h1 : (strContainsSub s "line" || strContainsSub s "lines") with
    | true => simp
    | false =>
      simp only [Bool.false_eq_true, if_false]
      cases h2 : (strContainsSub s "circle" || strContainsSub s "circles") with
      | true => simp
      | false =>
        simp only [Bool.false_eq_true, if_false]
        cases h3 : (strContainsSub s "arc" || strContainsSub s "arcs") with
        | true => simp
        | false =>
          simp only [Bool.false_eq_true, if_false]
          cases h4 : (strContainsSub s "rectangle" || (strContainsSub s "rect" || (strContainsSub s "box" || strContainsSub s "square"))) with
          | true => simp
          | false =>
            simp only [Bool.false_eq_true, if_false]
            cases h5 : (strContainsSub s "polyline" || (strContainsSub s "polygon" || strContainsSub s "path")) with
            | true => simp
            | false =>
              simp only [Bool.false_eq_true, if_false]
              cases h6 : (strContainsSub s "text" || (strContainsSub s "label" || strContainsSub s "annotation")) with
              | true => simp
              | false =>
                simp only [Bool.false_eq_true, if_false]
                cases h7 : (strContainsSub s "hatch" || (strContainsSub s "fill" || strContainsSub s "pattern")) with
                | true => simp
                | false =>
                  simp only [Bool.false_eq_true, if_false]
                  cases h8 : (strContainsSub s "dimension" || (strContainsSub s "measure" || strContainsSub s "measurement")) with
                  | true => simp
                  | false =>
                    simp only [Bool.false_eq_true, if_false]

/-- Claim C2: `parse_command` classifies every input exactly as the
specification describes — save (by the save-keyword substring test, taking
precedence over all shape keywords) on the lower-cased input, otherwise the
first shape in the fixed declared order one of whose keyword synonyms
occurs as a substring, otherwise unknown. -/
theorem c2_classification_matches_spec (command : String) :
    classificationOf (parseCommand command) = specClassify (strLower command) :=
  (classificationOf_parseCommand command).trans
    (detectCommandType_eq_specClassify (strLower command))

/-- Claim C1 (behaviour at the failing input): on
"draw a red line from (0,0) to (10,10)" in a running session, the extracted
color name "red" is never resolved to a palette index; it is handed
positionally to the backend as the `layer` argument, so the created line
carries layer "red" and no color attribute, and a layer named "red" is
created. -/
theorem c1_color_name_reaches_backend_unresolved :
    processNaturalLanguageCommand startedController
        "draw a red line from (0,0) to (10,10)" =
      (DispatchResult.handle (some (Entity.line [0, 0, 0] [10, 10, 0]
          { layer := some "red", color := none, lineweight := none })),
       { app := true,
         doc := some { layers := [("0", 7), ("red", 7)],
                       entities := [Entity.line [0, 0, 0] [10, 10, 0]
                         { layer := some "red", color := none, lineweight := none }] } }) := by
  decide

end CadMcp
